import Mathlib

/-!
Shallow embedding of the game-state controller of the detective-game
frontend (src/frontend/src/App.js), together with theorems checking the
natural-language specification against it.

Modelling conventions:
* React `useState` cells become fields of an `AppState` structure; each
  handler becomes a pure function `AppState → inputs → AppState` (plus
  explicit outputs for alerts, scheduled timers and storage writes).
* Nullable / possibly-absent JavaScript values are `Option`; JavaScript
  truthiness of a string-or-null value (`!x`) is the function
  `jsTruthyStr` (false exactly for `null`/absent and for `""`).
* Nondeterministic sources (`Date.now()`, `Math.random()`,
  `new Date().toLocaleString()`) are explicit parameters.
* `localStorage` is modelled per key: the saved-games key holds an
  `Option String`; JSON parsing of it is an abstract parameter
  `parse : String → Option (List SaveRecord)`.
-/

namespace DetectiveApp

/-- JavaScript truthiness of a string-or-null value: `!x` is true exactly
when the value is `null`/`undefined` or the empty string. -/
def jsTruthyStr : Option String → Bool
  | none => false
  | some s => s ≠ ""

/-- JavaScript `v || dflt` for a string-or-absent value `v`. -/
def jsOrStr (v : Option String) (dflt : String) : String :=
  match v with
  | none => dflt
  | some s => if s = "" then dflt else s

/-- Helper for `jsTrim`: drops leading whitespace characters. -/
def trimLeadingWs : List Char → List Char
  | [] => []
  | c :: cs => if c.isWhitespace then trimLeadingWs cs else c :: cs

/-- JavaScript `s.trim()`: strips leading and trailing whitespace
(structurally recursive, so it evaluates on concrete strings). -/
def jsTrim (s : String) : String :=
  String.mk ((trimLeadingWs (trimLeadingWs s.data).reverse).reverse)

/-- A character of a case (fields the frontend reads: `id`, `name`,
`description`, optional `motive`). -/
structure Character where
  id : String
  name : String
  description : String
  motive : Option String
  deriving Repr, DecidableEq

/-- A piece of evidence (fields the frontend reads). -/
structure Evidence where
  id : String
  name : String
  description : String
  location_found : String
  deriving Repr, DecidableEq

/-- A generated visual scene. -/
structure VisualScene where
  id : String
  title : String
  description : String
  image_url : String
  deriving Repr, DecidableEq

/-- A case record as held in `currentCase` (and as fetched from the
backend): `id` and `crime_scene_image_url` are nullable. -/
structure GameCase where
  id : Option String
  title : String
  setting : String
  victim_name : String
  crime_scene_description : String
  crime_scene_image_url : Option String
  characters : List Character
  evidence : List Evidence
  visual_scenes : List VisualScene
  deriving Repr, DecidableEq

/-- One entry of a per-character conversation transcript. -/
structure ConversationEntry where
  question : String
  response : String
  timestamp : String
  deriving Repr, DecidableEq

/-- The conversation map, keyed by character id (a JavaScript object
modelled as an association list). -/
abbrev Conversations := List (String × List ConversationEntry)

/-- A "new character discovered" notification as built in
`questionCharacter` (`character` is `safeGet(discovery, 'character')`,
hence nullable before filtering). -/
structure CharNotification where
  id : Nat
  character : Option Character
  discoveredThrough : String
  context : String
  timestamp : Nat
  deriving Repr, DecidableEq

/-- A "visual scene generated" notification. -/
structure SceneNotification where
  id : Nat
  scene : VisualScene
  character : String
  timestamp : Nat
  deriving Repr, DecidableEq

/-- A save record as built by `saveGame` (`gameData`). Snapshot fields
are `Option` because `loadGame` defends against their absence. -/
structure SaveRecord where
  id : String
  name : String
  timestamp : String
  currentCase : Option GameCase
  sessionId : Option String
  conversations : Option Conversations
  investigationNotes : Option String
  selectedEvidence : Option (List String)
  theory : Option String
  analysis : Option String
  gameState : Option String
  deriving Repr, DecidableEq

/-- The controller state: one field per `useState` cell of `App`. -/
structure AppState where
  currentCase : Option GameCase
  sessionId : Option String
  loading : Bool
  activeCharacter : Option Character
  question : String
  conversations : Conversations
  selectedEvidence : List String
  theory : String
  analysis : String
  investigationNotes : String
  gameState : String
  showContextPanel : Bool
  showSaveLoad : Bool
  newCharacterNotifications : List CharNotification
  visualSceneNotifications : List SceneNotification
  savedGames : List SaveRecord
  deriving Repr, DecidableEq

/-- The `localStorage` cell under the saved-games key:
`absent` is a missing key, `raw s` an arbitrary stored string, and
`collection l` the `JSON.stringify` of a save collection (which
`JSON.parse` round-trips back to `l`). -/
inductive StoredCell where
  | absent
  | raw (s : String)
  | collection (saves : List SaveRecord)
  deriving Repr, DecidableEq

/-- The mount-time effect loading saved games: `getItem`, the JavaScript
truthiness guard `if (saved)`, `JSON.parse` (abstracted as `parse`), and
`removeItem` on a parse failure. Returns the resulting in-memory
saved-games list (initially `[]`) and the resulting cell; the function is
total, so the effect never throws. -/
def loadSavedGames (parse : String → Option (List SaveRecord))
    (store : StoredCell) : List SaveRecord × StoredCell :=
  match store with
  | .absent => ([], .absent)
  | .raw str =>
    if str = "" then ([], .raw str)
    else
      match parse str with
      | some saves => (saves, .raw str)
      | none => ([], .absent)
  | .collection saves => (saves, .collection saves)

/-- The `gameData` record that `saveGame` builds from the live state
(`nowId` is `Date.now().toString()`, `ts` is
`new Date().toLocaleString()`). -/
def mkSaveRecord (s : AppState) (c : GameCase) (saveName : Option String)
    (nowId ts : String) : SaveRecord :=
  { id := nowId,
    name := jsOrStr saveName ("Case: " ++ c.title),
    timestamp := ts,
    currentCase := s.currentCase,
    sessionId := s.sessionId,
    conversations := some s.conversations,
    investigationNotes := some s.investigationNotes,
    selectedEvidence := some s.selectedEvidence,
    theory := some s.theory,
    analysis := some s.analysis,
    gameState := some s.gameState }

/-- `saveGame(saveName)`: with no active case it alerts and changes
nothing; otherwise it appends the snapshot record to the collection,
writes the whole collection to storage, updates the in-memory list and
closes the save/load modal. Returns the new state, the new storage cell
and the record produced. -/
def saveGame (s : AppState) (store : StoredCell) (saveName : Option String)
    (nowId ts : String) : AppState × StoredCell × Option SaveRecord :=
  match s.currentCase with
  | none => (s, store, none)
  | some c =>
    let gameData := mkSaveRecord s c saveName nowId ts
    let updatedSaves := s.savedGames ++ [gameData]
    ({ s with savedGames := updatedSaves, showSaveLoad := false },
      StoredCell.collection updatedSaves, some gameData)

/-- `loadGame(saveData)`: replaces the controller state from the snapshot
fields, with JavaScript `||` defaults for the optional ones. -/
def loadGame (s : AppState) (saveData : SaveRecord) : AppState :=
  { s with
    currentCase := saveData.currentCase,
    sessionId := saveData.sessionId,
    conversations := saveData.conversations.getD [],
    investigationNotes := jsOrStr saveData.investigationNotes "",
    selectedEvidence := saveData.selectedEvidence.getD [],
    theory := jsOrStr saveData.theory "",
    analysis := jsOrStr saveData.analysis "",
    gameState := jsOrStr saveData.gameState "playing",
    showSaveLoad := false }

/-- `deleteSave(saveId)`: behind the `window.confirm` guard, filters the
matching identifier out of the in-memory list and persists the filtered
collection. -/
def deleteSave (s : AppState) (store : StoredCell) (saveId : String)
    (confirmed : Bool) : AppState × StoredCell :=
  if confirmed then
    let updatedSaves := s.savedGames.filter (fun save => save.id ≠ saveId)
    ({ s with savedGames := updatedSaves }, StoredCell.collection updatedSaves)
  else (s, store)

/-- `toggleEvidenceSelection` on the bare selection list:
`prev.includes(id) ? prev.filter(x => x !== id) : [...prev, id]`. -/
def toggleSelection (prev : List String) (evidenceId : String) : List String :=
  if prev.contains evidenceId then
    prev.filter (fun id => id ≠ evidenceId)
  else
    prev ++ [evidenceId]

/-- `toggleEvidenceSelection(evidenceId)` on the controller state. -/
def toggleEvidenceSelection (s : AppState) (evidenceId : String) : AppState :=
  { s with selectedEvidence := toggleSelection s.selectedEvidence evidenceId }

/-- Apply a sequence of `toggleEvidenceSelection` calls. -/
def toggleSequence (s : AppState) (ids : List String) : AppState :=
  ids.foldl toggleEvidenceSelection s

/-- A parsed JSON value, as produced by `response.json()`. -/
inductive JsonVal where
  | jnull
  | jbool (b : Bool)
  | jnum (n : Int)
  | jstr (s : String)
  | jarr (elems : List JsonVal)
  | jobj (fields : List (String × JsonVal))
  deriving Repr

/-- JavaScript truthiness of a JSON value. -/
def jsTruthyJson : JsonVal → Bool
  | .jnull => false
  | .jbool b => b
  | .jnum n => n ≠ 0
  | .jstr s => s ≠ ""
  | .jarr _ => true
  | .jobj _ => true

/-- JavaScript `typeof v === 'object'` for a JSON value (`null` and
arrays are of object type). -/
def jsTypeofObject : JsonVal → Bool
  | .jnull => true
  | .jarr _ => true
  | .jobj _ => true
  | _ => false

/-- A settled fetch `Response`: `textResult` is the outcome of
`response.text()` (`none` if it threw), `jsonResult` the outcome of
`response.json()` (parse failures carry an engine-supplied message). -/
structure HttpResponse where
  ok : Bool
  status : Nat
  statusText : String
  textResult : Option String
  jsonResult : Except String JsonVal
  deriving Repr

/-- `handleApiResponse`: on a non-2xx response, raises the body text when
non-empty, else `"HTTP <status>: <statusText>"`; on a 2xx response,
parses the body and raises `'Invalid response format from server'`
unless the value is truthy and of object type. -/
def handleApiResponse (resp : HttpResponse) : Except String JsonVal :=
  if resp.ok = false then
    let defaultMsg := "HTTP " ++ toString resp.status ++ ": " ++ resp.statusText
    let errorMessage :=
      match resp.textResult with
      | some t => if t ≠ "" then t else defaultMsg
      | none => defaultMsg
    .error errorMessage
  else
    match resp.jsonResult with
    | .error e => .error e
    | .ok data =>
      if !jsTruthyJson data || !jsTypeofObject data then
        .error "Invalid response format from server"
      else .ok data

/-- The api-call part of `analyzeEvidence`, which bypasses
`handleApiResponse`: a non-2xx response raises the fixed message
`'Failed to analyze evidence'` (the body text is never read), and a 2xx
body is parsed with no shape validation at all. -/
def analyzeEvidenceApiResult (resp : HttpResponse) : Except String JsonVal :=
  if resp.ok = false then .error "Failed to analyze evidence"
  else resp.jsonResult

/-- The decoded body of a `generate-case` response after
`handleApiResponse`: `caseField` is `safeGet(data, 'case')` and
`session_id` is `safeGet(data, 'session_id')`. -/
structure GenerateCaseBody where
  caseField : Option GameCase
  session_id : Option String
  deriving Repr, DecidableEq

/-- `generateNewCase()`: `apiResult` is the outcome of the fetch composed
with `handleApiResponse`. On success with a truthy (non-null, non-empty)
case identifier the case is installed and the investigation state reset;
any failure alerts (returned message) and leaves all prior state
untouched (only the transient `loading` flag is forced off by the
`finally` block). -/
def generateNewCase (s : AppState)
    (apiResult : Except String GenerateCaseBody) : AppState × Option String :=
  match apiResult with
  | .error msg =>
    ({ s with loading := false }, some ("Failed to generate new case: " ++ msg))
  | .ok data =>
    match data.caseField with
    | none =>
      ({ s with loading := false },
        some "Failed to generate new case: Invalid case data received from server")
    | some caseData =>
      if jsTruthyStr caseData.id then
        ({ s with
            currentCase := some caseData, sessionId := data.session_id,
            gameState := "playing", conversations := [], selectedEvidence := [],
            theory := "", analysis := "", investigationNotes := "",
            showContextPanel := false, loading := false }, none)
      else
        ({ s with loading := false },
          some "Failed to generate new case: Invalid case data received from server")

/-- One element of a `new_characters_discovered` list (each field read
with `safeGet`, hence nullable). -/
structure Discovery where
  character : Option Character
  discovered_through : Option String
  context : Option String
  deriving Repr, DecidableEq

/-- The decoded body of a `question-character` response after
`handleApiResponse`. -/
structure QuestionBody where
  character_name : Option String
  response : Option String
  new_characters_discovered : Option (List Discovery)
  visual_scene_generated : Option VisualScene
  deriving Repr, DecidableEq

/-- A timer scheduled with `setTimeout` by `questionCharacter`:
the auto-dismissal of a batch of character notifications, or of one
scene notification. -/
inductive ScheduledTimer where
  | charExpiry (delayMs : Nat) (batch : List CharNotification)
  | sceneExpiry (delayMs : Nat) (notifId : Nat)
  deriving Repr, DecidableEq

/-- Lookup in a JavaScript object modelled as an association list. -/
def objGet (m : Conversations) (k : String) : Option (List ConversationEntry) :=
  (m.find? (fun p => p.1 = k)).map (fun p => p.2)

/-- Key update of a JavaScript object modelled as an association list:
replaces the binding in place if present, otherwise appends it. -/
def objSet (m : Conversations) (k : String) (v : List ConversationEntry) :
    Conversations :=
  if m.any (fun p => p.1 = k) then
    m.map (fun p => if p.1 = k then (k, v) else p)
  else m ++ [(k, v)]

/-- The firing of the 10-second character-notification timer: removes
from the queue every notification whose id is in the captured batch. -/
def expireCharBatch (batch : List CharNotification)
    (queue : List CharNotification) : List CharNotification :=
  queue.filter (fun n => !(batch.any (fun b => b.id = n.id)))

/-- `questionCharacter()`: guards on an empty trimmed question or no
active character; with no current case the body construction throws and
is caught. On a successful response it appends a conversation entry,
appends every non-null discovered character payload to the case (no
deduplication), enqueues one notification per non-null payload with a
10-second expiry timer over the batch, and appends an optional generated
visual scene with its own 8-second notification. `idGen i` is the
`Date.now() + Math.random()` id of the i-th discovery notification,
`sceneNotifId` that of the scene notification, `now` is `Date.now()` and
`nowTimeStr` is `new Date().toLocaleTimeString()`. -/
def questionCharacter (s : AppState) (idGen : Nat → Nat) (sceneNotifId : Nat)
    (now : Nat) (nowTimeStr : String)
    (apiResult : Except String QuestionBody) : AppState × List ScheduledTimer :=
  if jsTrim s.question = "" ∨ s.activeCharacter = none then (s, [])
  else
    match s.activeCharacter with
    | none => (s, [])
    | some ac =>
      match s.currentCase with
      | none => ({ s with loading := false }, [])
      | some c =>
        match apiResult with
        | .error _ => ({ s with loading := false }, [])
        | .ok data =>
          let response_text := data.response.getD "No response received"
          let entry : ConversationEntry :=
            { question := jsTrim s.question, response := response_text,
              timestamp := nowTimeStr }
          let conversations1 :=
            objSet s.conversations ac.id
              ((objGet s.conversations ac.id).getD [] ++ [entry])
          let ds := data.new_characters_discovered.getD []
          let c1 :=
            if ds ≠ [] then
              { c with characters :=
                  c.characters ++ ds.filterMap (fun d => d.character) }
            else c
          let batch :=
            if ds ≠ [] then
              ((ds.enum).map (fun p =>
                ({ id := idGen p.1, character := p.2.character,
                   discoveredThrough := p.2.discovered_through.getD "Unknown",
                   context := p.2.context.getD "",
                   timestamp := now } : CharNotification))).filter
                (fun n => n.character.isSome)
            else []
          let charTimers :=
            if ds ≠ [] then [ScheduledTimer.charExpiry 10000 batch] else []
          match data.visual_scene_generated with
          | some scene =>
            let c2 := { c1 with visual_scenes := c1.visual_scenes ++ [scene] }
            let characterName := jsOrStr data.character_name ac.name
            let sceneNotif : SceneNotification :=
              { id := sceneNotifId, scene := scene, character := characterName,
                timestamp := now }
            ({ s with
                currentCase := some c2, conversations := conversations1,
                question := "", loading := false,
                newCharacterNotifications :=
                  s.newCharacterNotifications ++ batch,
                visualSceneNotifications :=
                  s.visualSceneNotifications ++ [sceneNotif] },
              charTimers ++ [ScheduledTimer.sceneExpiry 8000 sceneNotif.id])
          | none =>
            ({ s with
                currentCase := some c1, conversations := conversations1,
                question := "", loading := false,
                newCharacterNotifications :=
                  s.newCharacterNotifications ++ batch },
              charTimers)

/-- The outcome of the `analyze-evidence` fetch as `analyzeEvidence`
sees it: network failure, non-2xx, or a 2xx body carrying
`data.analysis`. -/
inductive AnalyzeOutcome where
  | networkError
  | httpError
  | ok (analysis : String)
  deriving Repr, DecidableEq

/-- `analyzeEvidence()`: with blank (trimmed-empty) theory text or an
empty selection, alerts and returns before any fetch; otherwise the
backend is called, and on success the analysis is stored and the screen
mode becomes "analysis". Returns the new state, whether the backend was
called, and the alert message if any. -/
def analyzeEvidence (s : AppState) (outcome : AnalyzeOutcome) :
    AppState × Bool × Option String :=
  if jsTrim s.theory = "" ∨ s.selectedEvidence = [] then
    (s, false, some "Please select evidence and provide a theory to analyze.")
  else
    match outcome with
    | .ok a =>
      ({ s with analysis := a, gameState := "analysis", loading := false },
        true, none)
    | _ =>
      ({ s with loading := false }, true,
        some "Failed to analyze evidence. Please try again.")

/-- The outcome of one poll's fetch in `refreshCaseData`: network/parse
failure, a non-2xx response, or a 2xx body whose `case` field may be
absent. -/
inductive RefreshOutcome where
  | networkError
  | notOk
  | ok (caseField : Option GameCase)
  deriving Repr, DecidableEq

/-- `refreshCaseData()`: returns immediately without a truthy current
case id; on a 2xx body it merges at most two deltas into the live case —
the crime-scene image URL when the current one is falsy and the fetched
one truthy, and the visual-scenes list when the fetched list is strictly
longer; every failure path changes nothing. -/
def refreshCaseData (s : AppState) (outcome : RefreshOutcome) : AppState :=
  match s.currentCase with
  | none => s
  | some c =>
    if jsTruthyStr c.id then
      match outcome with
      | .ok (some updatedCase) =>
        let c1 :=
          if !jsTruthyStr c.crime_scene_image_url &&
              jsTruthyStr updatedCase.crime_scene_image_url then
            { c with crime_scene_image_url :=
                updatedCase.crime_scene_image_url }
          else c
        let c2 :=
          if updatedCase.visual_scenes.length > c.visual_scenes.length then
            { c1 with visual_scenes := updatedCase.visual_scenes }
          else c1
        { s with currentCase := some c2 }
      | _ => s
    else s

lemma toggleSelection_mem_self (prev : List String) (j : String) :
    j ∈ toggleSelection prev j ↔ j ∉ prev := by
  unfold toggleSelection
  by_cases h : prev.contains j
  · have hj : j ∈ prev := by simpa using h
    simp only [h, if_pos]
    constructor
    · intro hm
      have := List.of_mem_filter hm
      simp at this
    · intro hnm
      exact absurd hj hnm
  · have hnm : j ∉ prev := by simpa using h
    simp only [h, if_neg, Bool.false_eq_true, not_false_iff]
    simp [hnm]

lemma toggleSelection_mem_other (prev : List String) (j i : String) (hne : i ≠ j) :
    i ∈ toggleSelection prev j ↔ i ∈ prev := by
  unfold toggleSelection
  by_cases h : prev.contains j
  · simp only [h, if_pos]
    constructor
    · intro hm
      exact List.mem_of_mem_filter hm
    · intro hm
      exact List.mem_filter.mpr ⟨hm, by simp [hne]⟩
  · simp only [h, if_neg, Bool.false_eq_true, not_false_iff]
    simp [List.mem_append, hne]

/-- Parity invariant for a run of toggles starting from any selection. -/
lemma mem_foldl_toggleSelection (ids : List String) (prev : List String) (i : String) :
    i ∈ ids.foldl toggleSelection prev ↔
      ((i ∈ prev) ≠ (Odd (ids.count i))) := by
  induction ids generalizing prev with
  | nil => simp
  | cons j rest ih =>
    rw [List.foldl_cons, ih]
    by_cases hij : i = j
    · rw [hij, toggleSelection_mem_self]
      have hc : (j :: rest).count j = rest.count j + 1 := by
        simp [List.count_cons]
      rw [hc, Nat.odd_add_one]
      by_cases hp : j ∈ prev <;> by_cases ho : Odd (rest.count j) <;>
        simp [hp, ho]
    · rw [toggleSelection_mem_other prev j i hij]
      have hc : (j :: rest).count i = rest.count i := by
        simp [List.count_cons, hij]
      rw [hc]

lemma toggleSequence_selectedEvidence (s : AppState) (ids : List String) :
    (toggleSequence s ids).selectedEvidence =
      ids.foldl toggleSelection s.selectedEvidence := by
  unfold toggleSequence
  induction ids generalizing s with
  | nil => rfl
  | cons j rest ih =>
    rw [List.foldl_cons, List.foldl_cons, ih]
    rfl

/-- C1: starting from an active case and an empty selection, after any
sequence of `toggleEvidenceSelection(id)` calls the selected-evidence set
contains `id` iff `id` was toggled an odd number of times. -/
theorem toggle_parity (s : AppState) (ids : List String) (i : String)
    (hcase : s.currentCase ≠ none) (hempty : s.selectedEvidence = []) :
    i ∈ (toggleSequence s ids).selectedEvidence ↔ Odd (ids.count i) := by
  rw [toggleSequence_selectedEvidence, hempty, mem_foldl_toggleSelection]
  simp

/-- Concrete instance of C1: toggling e1, e2, e1, e2, e2 leaves exactly e2
selected. -/
theorem toggle_parity_witness :
    let c : GameCase :=
      { id := some "c1", title := "t", setting := "s", victim_name := "v",
        crime_scene_description := "d", crime_scene_image_url := none,
        characters := [], evidence := [], visual_scenes := [] }
    let s : AppState :=
      { currentCase := some c, sessionId := some "s1", loading := false,
        activeCharacter := none, question := "", conversations := [],
        selectedEvidence := [], theory := "", analysis := "",
        investigationNotes := "", gameState := "playing",
        showContextPanel := false, showSaveLoad := false,
        newCharacterNotifications := [], visualSceneNotifications := [],
        savedGames := [] }
    ("e2" ∈ (toggleSequence s ["e1", "e2", "e1", "e2", "e2"]).selectedEvidence ↔
      Odd (["e1", "e2", "e1", "e2", "e2"].count "e2")) ∧
    Odd (["e1", "e2", "e1", "e2", "e2"].count "e2") := by
  refine ⟨toggle_parity _ _ _ (by simp) rfl, by decide⟩

lemma jsOrStr_some_empty_default (t : String) : jsOrStr (some t) "" = t := by
  unfold jsOrStr
  by_cases h : t = "" <;> simp [h]

/-- C2: `saveGame` followed by `loadGame` on the record it produced
restores the pre-save Case, conversation map, notes, theory, analysis,
selected evidence, session identifier and screen mode. The screen mode is
one of the controller's three modes (all of which are non-empty strings,
so the `|| 'playing'` default never fires). -/
theorem saveGame_loadGame_roundtrip (s : AppState) (store : StoredCell)
    (saveName : Option String) (nowId ts : String)
    (hcase : s.currentCase ≠ none)
    (hmode : s.gameState = "menu" ∨ s.gameState = "playing" ∨
      s.gameState = "analysis") :
    ∃ r, (saveGame s store saveName nowId ts).2.2 = some r ∧
      ((loadGame (saveGame s store saveName nowId ts).1 r).currentCase =
          s.currentCase ∧
        (loadGame (saveGame s store saveName nowId ts).1 r).conversations =
          s.conversations ∧
        (loadGame (saveGame s store saveName nowId ts).1 r).investigationNotes =
          s.investigationNotes ∧
        (loadGame (saveGame s store saveName nowId ts).1 r).theory = s.theory ∧
        (loadGame (saveGame s store saveName nowId ts).1 r).analysis =
          s.analysis ∧
        (loadGame (saveGame s store saveName nowId ts).1 r).selectedEvidence =
          s.selectedEvidence ∧
        (loadGame (saveGame s store saveName nowId ts).1 r).sessionId =
          s.sessionId ∧
        (loadGame (saveGame s store saveName nowId ts).1 r).gameState =
          s.gameState) := by
  match hc : s.currentCase with
  | none => exact absurd hc hcase
  | some c =>
    refine ⟨mkSaveRecord s c saveName nowId ts, ?_, ?_⟩
    · simp [saveGame, hc]
    · have hgs : jsOrStr (some s.gameState) "playing" = s.gameState := by
        rcases hmode with h | h | h <;> rw [h] <;> rfl
      simp [saveGame, loadGame, mkSaveRecord, hc, hgs,
        jsOrStr_some_empty_default]

/-- Concrete instance of C2. -/
theorem saveGame_loadGame_roundtrip_witness :
    let c : GameCase :=
      { id := some "c1", title := "The Study", setting := "manor",
        victim_name := "v", crime_scene_description := "d",
        crime_scene_image_url := none, characters := [], evidence := [],
        visual_scenes := [] }
    let s : AppState :=
      { currentCase := some c, sessionId := some "s1", loading := false,
        activeCharacter := none, question := "", conversations :=
          [("ch1", [{ question := "q", response := "r", timestamp := "t" }])],
        selectedEvidence := ["e1"], theory := "th", analysis := "an",
        investigationNotes := "notes", gameState := "playing",
        showContextPanel := false, showSaveLoad := true,
        newCharacterNotifications := [], visualSceneNotifications := [],
        savedGames := [] }
    ∃ r, (saveGame s .absent none "100" "ts").2.2 = some r ∧
      ((loadGame (saveGame s .absent none "100" "ts").1 r).currentCase =
          s.currentCase ∧
        (loadGame (saveGame s .absent none "100" "ts").1 r).conversations =
          s.conversations ∧
        (loadGame (saveGame s .absent none "100" "ts").1 r).investigationNotes =
          s.investigationNotes ∧
        (loadGame (saveGame s .absent none "100" "ts").1 r).theory = s.theory ∧
        (loadGame (saveGame s .absent none "100" "ts").1 r).analysis =
          s.analysis ∧
        (loadGame (saveGame s .absent none "100" "ts").1 r).selectedEvidence =
          s.selectedEvidence ∧
        (loadGame (saveGame s .absent none "100" "ts").1 r).sessionId =
          s.sessionId ∧
        (loadGame (saveGame s .absent none "100" "ts").1 r).gameState =
          s.gameState) :=
  saveGame_loadGame_roundtrip _ _ _ _ _ (by simp) (Or.inr (Or.inl rfl))

/-- C7: a confirmed `deleteSave(saveId)`, with the persisted collection
being the in-memory list, leaves both the in-memory list and the
persisted collection equal to the prior list with exactly the records
whose identifier equals `saveId` removed; every other record remains, in
its original relative order (the result is a sublist of the original). -/
theorem deleteSave_removes_exactly (s : AppState) (store : StoredCell)
    (saveId : String)
    (hstore : store = StoredCell.collection s.savedGames) :
    (deleteSave s store saveId true).1.savedGames =
        s.savedGames.filter (fun r => r.id ≠ saveId) ∧
      (deleteSave s store saveId true).2 =
        StoredCell.collection (s.savedGames.filter (fun r => r.id ≠ saveId)) ∧
      (∀ r ∈ (deleteSave s store saveId true).1.savedGames, r.id ≠ saveId) ∧
      (∀ r ∈ s.savedGames, r.id ≠ saveId →
        r ∈ (deleteSave s store saveId true).1.savedGames) ∧
      (deleteSave s store saveId true).1.savedGames.Sublist s.savedGames := by
  refine ⟨rfl, rfl, ?_, ?_, ?_⟩
  · intro r hr
    have := List.of_mem_filter hr
    simpa using this
  · intro r hr hne
    exact List.mem_filter.mpr ⟨hr, by simpa using hne⟩
  · exact List.filter_sublist _

/-- Concrete instance of C7: deleting "1" from saves "1","2" keeps "2"
persisted and in memory. -/
theorem deleteSave_removes_exactly_witness :
    let r1 : SaveRecord :=
      { id := "1", name := "a", timestamp := "t", currentCase := none,
        sessionId := none, conversations := none,
        investigationNotes := none, selectedEvidence := none,
        theory := none, analysis := none, gameState := none }
    let r2 : SaveRecord :=
      { id := "2", name := "b", timestamp := "t", currentCase := none,
        sessionId := none, conversations := none,
        investigationNotes := none, selectedEvidence := none,
        theory := none, analysis := none, gameState := none }
    let s : AppState :=
      { currentCase := none, sessionId := none, loading := false,
        activeCharacter := none, question := "", conversations := [],
        selectedEvidence := [], theory := "", analysis := "",
        investigationNotes := "", gameState := "menu",
        showContextPanel := false, showSaveLoad := false,
        newCharacterNotifications := [], visualSceneNotifications := [],
        savedGames := [r1, r2] }
    (deleteSave s (.collection [r1, r2]) "1" true).1.savedGames =
        [r1, r2].filter (fun r => r.id ≠ "1") ∧
      (deleteSave s (.collection [r1, r2]) "1" true).2 =
        StoredCell.collection ([r1, r2].filter (fun r => r.id ≠ "1")) ∧
      (∀ r ∈ (deleteSave s (.collection [r1, r2]) "1" true).1.savedGames,
        r.id ≠ "1") ∧
      (∀ r ∈ [r1, r2], r.id ≠ "1" →
        r ∈ (deleteSave s (.collection [r1, r2]) "1" true).1.savedGames) ∧
      (deleteSave s (.collection [r1, r2]) "1" true).1.savedGames.Sublist
        [r1, r2] :=
  deleteSave_removes_exactly _ _ _ rfl

/-- The claim that every stored value which fails to parse is removed
from storage is false: the stored empty string fails `JSON.parse`, but
the `if (saved)` truthiness guard skips it, so it is never removed (the
cell still holds `""` afterwards). -/
theorem loadSavedGames_empty_string_counterexample :
    (loadSavedGames (fun _ => none) (.raw "")).1 = [] ∧
      (loadSavedGames (fun _ => none) (.raw "")).2 = StoredCell.raw "" ∧
      StoredCell.raw "" ≠ StoredCell.absent := by
  refine ⟨rfl, rfl, by simp⟩

/-- C8 (amended): the initial load never throws (it is a total function);
an absent cell yields an empty collection; a non-empty stored value that
fails to parse yields an empty collection and the cell is removed; the
stored empty string is skipped by the truthiness guard — empty collection,
cell left in place; a value that parses becomes the in-memory list. -/
theorem loadSavedGames_spec (parse : String → Option (List SaveRecord))
    (str : String) (l : List SaveRecord) :
    loadSavedGames parse .absent = ([], .absent) ∧
      (str ≠ "" → parse str = none →
        loadSavedGames parse (.raw str) = ([], .absent)) ∧
      (str ≠ "" → parse str = some l →
        loadSavedGames parse (.raw str) = (l, .raw str)) ∧
      loadSavedGames parse (.raw "") = ([], .raw "") ∧
      loadSavedGames parse (.collection l) = (l, .collection l) := by
  refine ⟨rfl, ?_, ?_, rfl, rfl⟩
  · intro hne hp
    simp [loadSavedGames, hne, hp]
  · intro hne hp
    simp [loadSavedGames, hne, hp]

/-- Concrete instance of C8 (amended): a non-empty unparseable value is
cleared. -/
theorem loadSavedGames_spec_witness :
    loadSavedGames (fun _ => none) (.raw "not json") = ([], .absent) :=
  (loadSavedGames_spec (fun _ => none) "not json" []).2.1 (by decide) rfl

/-- The claim that a 2xx body containing a non-null case object with a
non-null identifier is accepted is false: the identifier `""` is non-null,
but the JavaScript truthiness check `!caseData.id` rejects it, so the
call is treated as failed and the prior state (screen mode "menu", no
case) is kept. -/
theorem generateNewCase_nonnull_id_counterexample :
    let caseData : GameCase :=
      { id := some "", title := "The Study", setting := "manor",
        victim_name := "v", crime_scene_description := "d",
        crime_scene_image_url := none, characters := [], evidence := [],
        visual_scenes := [] }
    let s : AppState :=
      { currentCase := none, sessionId := none, loading := true,
        activeCharacter := none, question := "", conversations := [],
        selectedEvidence := [], theory := "", analysis := "",
        investigationNotes := "", gameState := "menu",
        showContextPanel := false, showSaveLoad := false,
        newCharacterNotifications := [], visualSceneNotifications := [],
        savedGames := [] }
    let res := generateNewCase s
      (.ok { caseField := some caseData, session_id := some "s1" })
    caseData.id ≠ none ∧ res.1.gameState = "menu" ∧
      res.1.gameState ≠ "playing" ∧ res.1.currentCase = none ∧
      (res.2).isSome = true := by
  refine ⟨by simp, rfl, by decide, rfl, rfl⟩

/-- C3 (amended): `generateNewCase` treats as failed any error from the
facade and any 2xx body whose case object is null or whose identifier is
not truthy (null or the empty string); every failure alerts and leaves
all prior state untouched (the transient `loading` flag aside). A 2xx
body with a non-null case object and a truthy identifier installs the
case, stores the session id, resets conversations, selected evidence,
theory, analysis and notes to empty and sets the screen mode to
"playing". -/
theorem generateNewCase_spec (s : AppState)
    (apiResult : Except String GenerateCaseBody) :
    (∀ e, apiResult = .error e →
      generateNewCase s apiResult = ({ s with loading := false },
        some ("Failed to generate new case: " ++ e))) ∧
    (∀ body, apiResult = .ok body → body.caseField = none →
      generateNewCase s apiResult = ({ s with loading := false },
        some "Failed to generate new case: Invalid case data received from server")) ∧
    (∀ body caseData, apiResult = .ok body → body.caseField = some caseData →
      jsTruthyStr caseData.id = false →
      generateNewCase s apiResult = ({ s with loading := false },
        some "Failed to generate new case: Invalid case data received from server")) ∧
    (∀ body caseData, apiResult = .ok body → body.caseField = some caseData →
      jsTruthyStr caseData.id = true →
      generateNewCase s apiResult = ({ s with
          currentCase := some caseData, sessionId := body.session_id,
          gameState := "playing", conversations := [], selectedEvidence := [],
          theory := "", analysis := "", investigationNotes := "",
          showContextPanel := false, loading := false }, none)) := by
  refine ⟨?_, ?_, ?_, ?_⟩
  · intro e he
    subst he
    rfl
  · intro body hb hcf
    subst hb
    simp [generateNewCase, hcf]
  · intro body caseData hb hcf hid
    subst hb
    simp [generateNewCase, hcf, hid]
  · intro body caseData hb hcf hid
    subst hb
    simp [generateNewCase, hcf, hid]

/-- Concrete instance of C3 (amended), the spec's worked example:
`{case: {id:"c1", title:"The Study", ...}, session_id:"s1"}` yields
screen mode "playing", case "c1" installed, empty conversation map. -/
theorem generateNewCase_spec_witness :
    let caseData : GameCase :=
      { id := some "c1", title := "The Study", setting := "manor",
        victim_name := "v", crime_scene_description := "d",
        crime_scene_image_url := none, characters := [], evidence := [],
        visual_scenes := [] }
    let s : AppState :=
      { currentCase := none, sessionId := none, loading := true,
        activeCharacter := none, question := "", conversations := [],
        selectedEvidence := [], theory := "", analysis := "",
        investigationNotes := "", gameState := "menu",
        showContextPanel := false, showSaveLoad := false,
        newCharacterNotifications := [], visualSceneNotifications := [],
        savedGames := [] }
    generateNewCase s
        (.ok { caseField := some caseData, session_id := some "s1" }) =
      ({ s with
          currentCase := some caseData, sessionId := some "s1",
          gameState := "playing", conversations := [], selectedEvidence := [],
          theory := "", analysis := "", investigationNotes := "",
          showContextPanel := false, loading := false }, none) := by
  intro caseData s
  exact (generateNewCase_spec s
    (.ok { caseField := some caseData, session_id := some "s1" })).2.2.2
    _ caseData rfl rfl (by simp [jsTruthyStr])

/-- C5: `analyzeEvidence` with blank (trimmed-empty) theory text or an
empty selection alerts a validation failure, does not call the backend
and changes no state; with a non-blank theory and a non-empty selection
the backend is called, and a successful response stores the analysis and
sets the screen mode to "analysis". -/
theorem analyzeEvidence_spec (s : AppState) (outcome : AnalyzeOutcome) :
    ((jsTrim s.theory = "" ∨ s.selectedEvidence = []) →
      analyzeEvidence s outcome =
        (s, false,
          some "Please select evidence and provide a theory to analyze.")) ∧
    (jsTrim s.theory ≠ "" → s.selectedEvidence ≠ [] →
      (analyzeEvidence s outcome).2.1 = true ∧
      (∀ a, outcome = .ok a →
        analyzeEvidence s outcome =
          ({ s with
              analysis := a, gameState := "analysis",
              loading := false }, true, none))) := by
  constructor
  · intro h
    simp [analyzeEvidence, h]
  · intro h1 h2
    constructor
    · cases outcome <;> simp [analyzeEvidence, h1, h2]
    · intro a ha
      subst ha
      simp [analyzeEvidence, h1, h2]

/-- Concrete instance of C5, the spec's worked example: empty theory text
and one selected evidence id — validation failure, no backend call, state
unchanged. -/
theorem analyzeEvidence_spec_witness :
    let s : AppState :=
      { currentCase := none, sessionId := none, loading := false,
        activeCharacter := none, question := "", conversations := [],
        selectedEvidence := ["e1"], theory := "", analysis := "",
        investigationNotes := "", gameState := "playing",
        showContextPanel := false, showSaveLoad := false,
        newCharacterNotifications := [], visualSceneNotifications := [],
        savedGames := [] }
    analyzeEvidence s .httpError =
      (s, false,
        some "Please select evidence and provide a theory to analyze.") := by
  intro s
  exact (analyzeEvidence_spec s .httpError).1 (Or.inl (by decide))

/-- The claim that the single-error contract (message = body text when
present, generic fallback otherwise) holds for all outbound calls is
false for `analyzeEvidence`: a non-2xx response whose body text is
"boom" raises the fixed message "Failed to analyze evidence" — the body
text is never read — while the facade `handleApiResponse` on the same
response raises "boom". -/
theorem api_contract_counterexample :
    let resp : HttpResponse :=
      { ok := false, status := 500, statusText := "Internal Server Error",
        textResult := some "boom", jsonResult := .error "parse" }
    analyzeEvidenceApiResult resp = .error "Failed to analyze evidence" ∧
      handleApiResponse resp = .error "boom" ∧
      analyzeEvidenceApiResult resp ≠ .error "boom" ∧
      analyzeEvidenceApiResult resp ≠
        .error ("HTTP " ++ toString (500 : Nat) ++ ": Internal Server Error") := by
  refine ⟨rfl, by simp [handleApiResponse], by simp [analyzeEvidenceApiResult], ?_⟩
  intro h
  simp only [analyzeEvidenceApiResult, if_pos, Except.error.injEq] at h
  exact absurd h (by decide)

/-- C9 (amended): the single-error contract holds for calls routed
through `handleApiResponse` (case generation, questioning): success
yields a JSON value that is truthy and of object type; a non-2xx
response raises the body text when non-empty, else
`"HTTP <status>: <statusText>"`; a 2xx body that parses to a non-object
or null value raises `'Invalid response format from server'`.
`analyzeEvidence` bypasses the facade: its non-2xx failures raise the
fixed message `'Failed to analyze evidence'` and its 2xx bodies are not
shape-validated. -/
theorem handleApiResponse_contract (resp : HttpResponse) :
    (resp.ok = false → ∃ msg, handleApiResponse resp = .error msg ∧
      ((∃ t, resp.textResult = some t ∧ t ≠ "" ∧ msg = t) ∨
        (msg = "HTTP " ++ toString resp.status ++ ": " ++ resp.statusText ∧
          (resp.textResult = none ∨ resp.textResult = some "")))) ∧
    (∀ data, resp.ok = true → resp.jsonResult = .ok data →
      jsTruthyJson data = true → jsTypeofObject data = true →
      handleApiResponse resp = .ok data) ∧
    (∀ data, handleApiResponse resp = .ok data →
      jsTruthyJson data = true ∧ jsTypeofObject data = true) ∧
    (∀ data, resp.ok = true → resp.jsonResult = .ok data →
      (jsTruthyJson data = false ∨ jsTypeofObject data = false) →
      handleApiResponse resp = .error "Invalid response format from server") ∧
    (resp.ok = false →
      analyzeEvidenceApiResult resp = .error "Failed to analyze evidence") := by
  refine ⟨?_, ?_, ?_, ?_, ?_⟩
  · intro hok
    match ht : resp.textResult with
    | none =>
      exact ⟨_, by simp [handleApiResponse, hok, ht], Or.inr ⟨rfl, Or.inl rfl⟩⟩
    | some t =>
      by_cases hne : t = ""
      · subst hne
        exact ⟨_, by simp [handleApiResponse, hok, ht], Or.inr ⟨rfl, Or.inr rfl⟩⟩
      · exact ⟨t, by simp [handleApiResponse, hok, ht, hne], Or.inl ⟨t, rfl, hne, rfl⟩⟩
  · intro data hok hj htr hto
    simp [handleApiResponse, hok, hj, htr, hto]
  · intro data hdata
    by_cases hok : resp.ok = false
    · simp [handleApiResponse, hok] at hdata
    · have hok2 : resp.ok = true := by
        cases h : resp.ok
        · exact absurd h hok
        · rfl
      match hj : resp.jsonResult with
      | .error e => simp [handleApiResponse, hok2, hj] at hdata
      | .ok v =>
        cases htr : jsTruthyJson v <;> cases hto : jsTypeofObject v
        · simp [handleApiResponse, hok2, hj, htr, hto] at hdata
        · simp [handleApiResponse, hok2, hj, htr, hto] at hdata
        · simp [handleApiResponse, hok2, hj, htr, hto] at hdata
        · simp [handleApiResponse, hok2, hj, htr, hto] at hdata
          subst hdata
          exact ⟨htr, hto⟩
  · intro data hok hj hbad
    have hc : (!jsTruthyJson data || !jsTypeofObject data) = true := by
      rcases hbad with h | h <;> simp [h]
    simp [handleApiResponse, hok, hj, hc]
  · intro hok
    simp [analyzeEvidenceApiResult, hok]

/-- Concrete instance of C9 (amended): a non-2xx response with non-empty
body text raises exactly that text through the facade. -/
theorem handleApiResponse_contract_witness :
    handleApiResponse
        { ok := false, status := 404, statusText := "Not Found",
          textResult := some "missing case", jsonResult := .error "parse" } =
      .error "missing case" := by
  have h := (handleApiResponse_contract
    { ok := false, status := 404, statusText := "Not Found",
      textResult := some "missing case", jsonResult := .error "parse" }).1 rfl
  obtain ⟨msg, heq, hcases⟩ := h
  rcases hcases with ⟨t, ht, hne, hmt⟩ | ⟨hmsg, hbad⟩
  · rw [heq]
    simp only [Option.some.injEq] at ht
    rw [hmt, ht]
  · rcases hbad with hb | hb <;> simp at hb

/-- C6: a poll modifies nothing but `currentCase` (frame equality); a
failed or non-2xx poll changes no state at all; and the merged case
agrees with the old one on every field except possibly the crime-scene
image URL (changed only from a falsy value to a truthy fetched value,
taking the fetched value) and the visual-scenes list (changed only when
the fetched list is strictly longer, taking the fetched list). -/
theorem refreshCaseData_frame (s : AppState) (outcome : RefreshOutcome) :
    refreshCaseData s outcome =
      { s with currentCase := (refreshCaseData s outcome).currentCase } ∧
    (outcome = .networkError ∨ outcome = .notOk →
      refreshCaseData s outcome = s) ∧
    (s.currentCase = none → refreshCaseData s outcome = s) ∧
    (∀ c, s.currentCase = some c → ∃ c2,
      (refreshCaseData s outcome).currentCase = some c2 ∧
      c2.id = c.id ∧ c2.title = c.title ∧ c2.setting = c.setting ∧
      c2.victim_name = c.victim_name ∧
      c2.crime_scene_description = c.crime_scene_description ∧
      c2.characters = c.characters ∧ c2.evidence = c.evidence ∧
      (c2.crime_scene_image_url = c.crime_scene_image_url ∨
        (jsTruthyStr c.crime_scene_image_url = false ∧ ∃ upd,
          outcome = .ok (some upd) ∧
          jsTruthyStr upd.crime_scene_image_url = true ∧
          c2.crime_scene_image_url = upd.crime_scene_image_url)) ∧
      (c2.visual_scenes = c.visual_scenes ∨ (∃ upd,
        outcome = .ok (some upd) ∧
        c.visual_scenes.length < upd.visual_scenes.length ∧
        c2.visual_scenes = upd.visual_scenes))) := by
  cases hcc : s.currentCase with
  | none =>
    have hres : refreshCaseData s outcome = s := by
      simp [refreshCaseData, hcc]
    refine ⟨by rw [hres], fun _ => hres, fun _ => hres, ?_⟩
    intro c h
    exact Option.noConfusion h
  | some c =>
    by_cases hid : jsTruthyStr c.id
    · cases outcome with
      | networkError =>
        have hres : refreshCaseData s .networkError = s := by
          simp [refreshCaseData, hcc, hid]
        refine ⟨by rw [hres], fun _ => hres, fun h => Option.noConfusion h, ?_⟩
        intro c2 h
        injection h with hc
        subst hc
        exact ⟨c, by rw [hres, hcc], rfl, rfl, rfl, rfl, rfl, rfl, rfl,
          Or.inl rfl, Or.inl rfl⟩
      | notOk =>
        have hres : refreshCaseData s .notOk = s := by
          simp [refreshCaseData, hcc, hid]
        refine ⟨by rw [hres], fun _ => hres, fun h => Option.noConfusion h, ?_⟩
        intro c2 h
        injection h with hc
        subst hc
        exact ⟨c, by rw [hres, hcc], rfl, rfl, rfl, rfl, rfl, rfl, rfl,
          Or.inl rfl, Or.inl rfl⟩
      | ok cf =>
        cases cf with
        | none =>
          have hres : refreshCaseData s (.ok none) = s := by
            simp [refreshCaseData, hcc, hid]
          refine ⟨by rw [hres], ?_, fun h => Option.noConfusion h, ?_⟩
          · intro h
            rcases h with h | h <;> exact RefreshOutcome.noConfusion h
          · intro c2 h
            injection h with hc
            subst hc
            exact ⟨c, by rw [hres, hcc], rfl, rfl, rfl, rfl, rfl, rfl, rfl,
              Or.inl rfl, Or.inl rfl⟩
        | some upd =>
          by_cases himg : (!jsTruthyStr c.crime_scene_image_url &&
              jsTruthyStr upd.crime_scene_image_url) = true
          · by_cases hlen :
                upd.visual_scenes.length > c.visual_scenes.length
            · have hres : refreshCaseData s (.ok (some upd)) = { s with
                  currentCase := some { c with
                    crime_scene_image_url := upd.crime_scene_image_url,
                    visual_scenes := upd.visual_scenes } } := by
                simp [refreshCaseData, hcc, hid, himg, hlen]
              simp only [Bool.and_eq_true, Bool.not_eq_true'] at himg
              refine ⟨by rw [hres], ?_, fun h => Option.noConfusion h, ?_⟩
              · intro h
                rcases h with h | h <;> exact RefreshOutcome.noConfusion h
              · intro c2 h
                injection h with hc
                subst hc
                exact ⟨{ c with
                    crime_scene_image_url := upd.crime_scene_image_url,
                    visual_scenes := upd.visual_scenes },
                  by rw [hres], rfl, rfl, rfl, rfl, rfl, rfl, rfl,
                  Or.inr ⟨himg.1, upd, rfl, himg.2, rfl⟩,
                  Or.inr ⟨upd, rfl, hlen, rfl⟩⟩
            · have hres : refreshCaseData s (.ok (some upd)) = { s with
                  currentCase := some { c with
                    crime_scene_image_url := upd.crime_scene_image_url } } := by
                simp [refreshCaseData, hcc, hid, himg, hlen]
              simp only [Bool.and_eq_true, Bool.not_eq_true'] at himg
              refine ⟨by rw [hres], ?_, fun h => Option.noConfusion h, ?_⟩
              · intro h
                rcases h with h | h <;> exact RefreshOutcome.noConfusion h
              · intro c2 h
                injection h with hc
                subst hc
                exact ⟨{ c with
                    crime_scene_image_url := upd.crime_scene_image_url },
                  by rw [hres], rfl, rfl, rfl, rfl, rfl, rfl, rfl,
                  Or.inr ⟨himg.1, upd, rfl, himg.2, rfl⟩, Or.inl rfl⟩
          · by_cases hlen :
                upd.visual_scenes.length > c.visual_scenes.length
            · have hres : refreshCaseData s (.ok (some upd)) = { s with
                  currentCase := some { c with
                    visual_scenes := upd.visual_scenes } } := by
                simp [refreshCaseData, hcc, hid, himg, hlen]
              refine ⟨by rw [hres], ?_, fun h => Option.noConfusion h, ?_⟩
              · intro h
                rcases h with h | h <;> exact RefreshOutcome.noConfusion h
              · intro c2 h
                injection h with hc
                subst hc
                exact ⟨{ c with visual_scenes := upd.visual_scenes },
                  by rw [hres], rfl, rfl, rfl, rfl, rfl, rfl, rfl,
                  Or.inl rfl, Or.inr ⟨upd, rfl, hlen, rfl⟩⟩
            · have hres : refreshCaseData s (.ok (some upd)) = s := by
                simp [refreshCaseData, hcc, hid, himg, hlen]
                rw [← hcc]
              refine ⟨by rw [hres], ?_, fun h => Option.noConfusion h, ?_⟩
              · intro h
                rcases h with h | h <;> exact RefreshOutcome.noConfusion h
              · intro c2 h
                injection h with hc
                subst hc
                exact ⟨c, by rw [hres, hcc], rfl, rfl, rfl, rfl, rfl, rfl,
                  rfl, Or.inl rfl, Or.inl rfl⟩
    · have hres : refreshCaseData s outcome = s := by
        simp [refreshCaseData, hcc, hid]
      refine ⟨by rw [hres], fun _ => hres, fun h => Option.noConfusion h, ?_⟩
      intro c2 h
      injection h with hc
      subst hc
      exact ⟨c, by rw [hres, hcc], rfl, rfl, rfl, rfl, rfl, rfl, rfl,
        Or.inl rfl, Or.inl rfl⟩

/-- Concrete instance of C6: a poll that finds a newly generated image
and one new scene merges exactly those two fields. -/
theorem refreshCaseData_frame_witness :
    let sc : VisualScene :=
      { id := "v1", title := "t", description := "d", image_url := "u" }
    let c : GameCase :=
      { id := some "c1", title := "T", setting := "S", victim_name := "V",
        crime_scene_description := "D", crime_scene_image_url := none,
        characters := [], evidence := [], visual_scenes := [] }
    let upd : GameCase :=
      { c with
        crime_scene_image_url := some "http://img",
        visual_scenes := [sc] }
    let s : AppState :=
      { currentCase := some c, sessionId := some "s1", loading := false,
        activeCharacter := none, question := "", conversations := [],
        selectedEvidence := [], theory := "", analysis := "",
        investigationNotes := "", gameState := "playing",
        showContextPanel := false, showSaveLoad := false,
        newCharacterNotifications := [], visualSceneNotifications := [],
        savedGames := [] }
    ∃ c2, (refreshCaseData s (.ok (some upd))).currentCase = some c2 ∧
      c2.id = c.id ∧ c2.title = c.title ∧ c2.setting = c.setting ∧
      c2.victim_name = c.victim_name ∧
      c2.crime_scene_description = c.crime_scene_description ∧
      c2.characters = c.characters ∧ c2.evidence = c.evidence ∧
      (c2.crime_scene_image_url = c.crime_scene_image_url ∨
        (jsTruthyStr c.crime_scene_image_url = false ∧ ∃ u2,
          (RefreshOutcome.ok (some upd)) = .ok (some u2) ∧
          jsTruthyStr u2.crime_scene_image_url = true ∧
          c2.crime_scene_image_url = u2.crime_scene_image_url)) ∧
      (c2.visual_scenes = c.visual_scenes ∨ (∃ u2,
        (RefreshOutcome.ok (some upd)) = .ok (some u2) ∧
        c.visual_scenes.length < u2.visual_scenes.length ∧
        c2.visual_scenes = u2.visual_scenes)) := by
  intro sc c upd s
  exact (refreshCaseData_frame s (.ok (some upd))).2.2.2 c rfl

lemma length_filterMap_of_all_isSome {α β : Type} (f : α → Option β)
    (l : List α) (h : ∀ d ∈ l, (f d).isSome) :
    (l.filterMap f).length = l.length := by
  induction l with
  | nil => rfl
  | cons a t ih =>
    have ha : (f a).isSome := h a (by simp)
    match hfa : f a with
    | none => rw [hfa] at ha; simp at ha
    | some b =>
      rw [List.filterMap_cons, hfa]
      simp only [List.length_cons]
      rw [ih (fun d hd => h d (by simp [hd]))]

lemma mem_enum_bounds {α : Type} {l : List α} {p : Nat × α}
    (h : p ∈ l.enum) : p.1 < l.length ∧ p.2 ∈ l := by
  rw [List.mem_enum_iff_getElem?] at h
  have hlt := List.getElem?_eq_some.mp h
  exact ⟨hlt.1, List.getElem?_mem h⟩

lemma expireCharBatch_append (batch old : List CharNotification)
    (hold : ∀ n ∈ old, ∀ b ∈ batch, b.id ≠ n.id) :
    expireCharBatch batch (old ++ batch) = old := by
  unfold expireCharBatch
  rw [List.filter_append]
  have h1 : old.filter (fun n => !(batch.any (fun b => b.id = n.id))) = old := by
    apply List.filter_eq_self.mpr
    intro n hn
    simp only [Bool.not_eq_true', List.any_eq_false, decide_eq_true_eq]
    intro b hb
    exact fun hbid => hold n hn b hb (by simpa using hbid)
  have h2 : batch.filter (fun n => !(batch.any (fun b => b.id = n.id))) = [] := by
    rw [List.filter_eq_nil_iff]
    intro b hb
    simp only [Bool.not_eq_true', List.any_eq_false, decide_eq_true_eq, not_forall]
    push_neg
    exact ⟨b, hb, rfl⟩
  rw [h1, h2, List.append_nil]

/-- Characterization of the success path of `questionCharacter` once the
guards are discharged. -/
lemma questionCharacter_ok_eq (s : AppState) (idGen : Nat → Nat)
    (sceneNotifId now : Nat) (nowTimeStr : String) (body : QuestionBody)
    (ac : Character) (c : GameCase)
    (hq : jsTrim s.question ≠ "") (hac : s.activeCharacter = some ac)
    (hcc : s.currentCase = some c) :
    questionCharacter s idGen sceneNotifId now nowTimeStr (.ok body) =
      (let conversations1 :=
        objSet s.conversations ac.id
          ((objGet s.conversations ac.id).getD [] ++
            [{ question := jsTrim s.question,
               response := body.response.getD "No response received",
               timestamp := nowTimeStr }])
       let ds := body.new_characters_discovered.getD []
       let c1 :=
         if ds ≠ [] then
           { c with characters :=
               c.characters ++ ds.filterMap (fun d => d.character) }
         else c
       let batch :=
         if ds ≠ [] then
           ((ds.enum).map (fun p =>
             ({ id := idGen p.1, character := p.2.character,
                discoveredThrough := p.2.discovered_through.getD "Unknown",
                context := p.2.context.getD "",
                timestamp := now } : CharNotification))).filter
             (fun n => n.character.isSome)
         else []
       let charTimers :=
         if ds ≠ [] then [ScheduledTimer.charExpiry 10000 batch] else []
       match body.visual_scene_generated with
       | some scene =>
         ({ s with
             currentCase := some
               { c1 with visual_scenes := c1.visual_scenes ++ [scene] },
             conversations := conversations1,
             question := "", loading := false,
             newCharacterNotifications :=
               s.newCharacterNotifications ++ batch,
             visualSceneNotifications :=
               s.visualSceneNotifications ++
                 [{ id := sceneNotifId, scene := scene,
                    character := jsOrStr body.character_name ac.name,
                    timestamp := now }] },
           charTimers ++ [ScheduledTimer.sceneExpiry 8000 sceneNotifId])
       | none =>
         ({ s with
             currentCase := some c1,
             conversations := conversations1,
             question := "", loading := false,
             newCharacterNotifications :=
               s.newCharacterNotifications ++ batch },
           charTimers)) := by
  have hg : ¬(jsTrim s.question = "" ∨ s.activeCharacter = none) := by
    rw [hac]
    simp [hq]
  rw [questionCharacter, if_neg hg, hac, hcc]

lemma filter_isSome_length_map_enumFrom
    (f : Nat × Discovery → CharNotification)
    (hf : ∀ p, (f p).character = p.2.character) (k : Nat)
    (ds : List Discovery) :
    (((ds.enumFrom k).map f).filter (fun n => n.character.isSome)).length =
      (ds.filter (fun d => d.character.isSome)).length := by
  induction ds generalizing k with
  | nil => rfl
  | cons d t ih =>
    simp only [List.enumFrom_cons, List.map_cons, List.filter_cons, hf]
    cases hd : (d.character).isSome
    · simp only [hd, Bool.false_eq_true, if_false]
      exact ih (k + 1)
    · simp only [hd, if_true, List.length_cons]
      rw [ih (k + 1)]

/-- C4: on a successful `questionCharacter` response whose discovered
list `ds` is non-empty and all of whose entries carry a character
payload, every payload is appended to the case's character list in order
with no deduplication (the new list is literally the old list followed by
all payloads, so a repeated identifier is appended again); one
notification per entry is enqueued at the end of the queue; a timer with
delay 10000 ms over exactly that batch is scheduled; and firing that
timer removes exactly the batch, restoring the prior queue (fresh
notification ids are assumed not to collide with queued ones). -/
theorem questionCharacter_discovery (s : AppState) (idGen : Nat → Nat)
    (sceneNotifId now : Nat) (nowTimeStr : String) (body : QuestionBody)
    (ac : Character) (c : GameCase) (ds : List Discovery)
    (hq : jsTrim s.question ≠ "") (hac : s.activeCharacter = some ac)
    (hcc : s.currentCase = some c)
    (hds : body.new_characters_discovered = some ds) (hne : ds ≠ [])
    (hall : ∀ d ∈ ds, (d.character).isSome)
    (hfresh : ∀ n ∈ s.newCharacterNotifications, ∀ i, i < ds.length →
      n.id ≠ idGen i) :
    ∃ c2 batch,
      (questionCharacter s idGen sceneNotifId now nowTimeStr
        (.ok body)).1.currentCase = some c2 ∧
      c2.characters = c.characters ++ ds.filterMap (fun d => d.character) ∧
      (ds.filterMap (fun d => d.character)).length = ds.length ∧
      (questionCharacter s idGen sceneNotifId now nowTimeStr
        (.ok body)).1.newCharacterNotifications =
        s.newCharacterNotifications ++ batch ∧
      batch.length = ds.length ∧
      ScheduledTimer.charExpiry 10000 batch ∈
        (questionCharacter s idGen sceneNotifId now nowTimeStr (.ok body)).2 ∧
      expireCharBatch batch
        (questionCharacter s idGen sceneNotifId now nowTimeStr
          (.ok body)).1.newCharacterNotifications =
        s.newCharacterNotifications := by
  have hQ := questionCharacter_ok_eq s idGen sceneNotifId now nowTimeStr body
    ac c hq hac hcc
  have hBall : ∀ n ∈ (ds.enum).map (fun p =>
      ({ id := idGen p.1, character := p.2.character,
         discoveredThrough := p.2.discovered_through.getD "Unknown",
         context := p.2.context.getD "",
         timestamp := now } : CharNotification)), n.character.isSome := by
    intro n hn
    obtain ⟨p, hp, rfl⟩ := List.mem_map.mp hn
    exact hall p.2 (mem_enum_bounds hp).2
  have hBeq : ((ds.enum).map (fun p =>
      ({ id := idGen p.1, character := p.2.character,
         discoveredThrough := p.2.discovered_through.getD "Unknown",
         context := p.2.context.getD "",
         timestamp := now } : CharNotification))).filter
        (fun n => n.character.isSome) =
      (ds.enum).map (fun p =>
      ({ id := idGen p.1, character := p.2.character,
         discoveredThrough := p.2.discovered_through.getD "Unknown",
         context := p.2.context.getD "",
         timestamp := now } : CharNotification)) :=
    List.filter_eq_self.mpr hBall
  have hBlen : (((ds.enum).map (fun p =>
      ({ id := idGen p.1, character := p.2.character,
         discoveredThrough := p.2.discovered_through.getD "Unknown",
         context := p.2.context.getD "",
         timestamp := now } : CharNotification))).filter
        (fun n => n.character.isSome)).length = ds.length := by
    rw [hBeq, List.length_map, List.enum_length]
  have hfm : (ds.filterMap (fun d => d.character)).length = ds.length :=
    length_filterMap_of_all_isSome _ _ hall
  have hBid : ∀ b ∈ ((ds.enum).map (fun p =>
      ({ id := idGen p.1, character := p.2.character,
         discoveredThrough := p.2.discovered_through.getD "Unknown",
         context := p.2.context.getD "",
         timestamp := now } : CharNotification))).filter
        (fun n => n.character.isSome),
      ∃ i, i < ds.length ∧ b.id = idGen i := by
    intro b hb
    have hb2 := List.mem_of_mem_filter hb
    obtain ⟨p, hp, rfl⟩ := List.mem_map.mp hb2
    exact ⟨p.1, (mem_enum_bounds hp).1, rfl⟩
  have hexp : expireCharBatch (((ds.enum).map (fun p =>
      ({ id := idGen p.1, character := p.2.character,
         discoveredThrough := p.2.discovered_through.getD "Unknown",
         context := p.2.context.getD "",
         timestamp := now } : CharNotification))).filter
        (fun n => n.character.isSome))
      (s.newCharacterNotifications ++ (((ds.enum).map (fun p =>
      ({ id := idGen p.1, character := p.2.character,
         discoveredThrough := p.2.discovered_through.getD "Unknown",
         context := p.2.context.getD "",
         timestamp := now } : CharNotification))).filter
        (fun n => n.character.isSome))) = s.newCharacterNotifications := by
    apply expireCharBatch_append
    intro n hn b hb
    obtain ⟨i, hi, hbid⟩ := hBid b hb
    rw [hbid]
    exact Ne.symm (hfresh n hn i hi)
  cases hvs : body.visual_scene_generated with
  | none =>
    refine ⟨{ c with characters :=
        c.characters ++ ds.filterMap (fun d => d.character) }, _,
      ?_, rfl, hfm, ?_, hBlen, ?_, ?_⟩
    · rw [hQ]
      simp only [hds, Option.getD_some, hvs, hne, ne_eq,
        not_false_eq_true, if_true]
    · rw [hQ]
      simp only [hds, Option.getD_some, hvs, hne, ne_eq,
        not_false_eq_true, if_true]
    · rw [hQ]
      simp only [hds, Option.getD_some, hvs, hne, ne_eq,
        not_false_eq_true, if_true, List.mem_singleton]
    · rw [hQ]
      simp only [hds, Option.getD_some, hvs, hne, ne_eq,
        not_false_eq_true, if_true]
      exact hexp
  | some scene =>
    refine ⟨{ c with
        characters := c.characters ++ ds.filterMap (fun d => d.character),
        visual_scenes := c.visual_scenes ++ [scene] }, _,
      ?_, rfl, hfm, ?_, hBlen, ?_, ?_⟩
    · rw [hQ]
      simp only [hds, Option.getD_some, hvs, hne, ne_eq,
        not_false_eq_true, if_true]
    · rw [hQ]
      simp only [hds, Option.getD_some, hvs, hne, ne_eq,
        not_false_eq_true, if_true]
    · rw [hQ]
      simp only [hds, Option.getD_some, hvs, hne, ne_eq,
        not_false_eq_true, if_true, List.singleton_append,
        List.mem_cons, List.mem_singleton]
      exact Or.inl trivial
    · rw [hQ]
      simp only [hds, Option.getD_some, hvs, hne, ne_eq,
        not_false_eq_true, if_true]
      exact hexp

/-- Concrete instance of C4, the spec's worked example: questioning Lady
Gray discovers the Gardener, who is appended and announced by a
notification batch on a 10000 ms timer. -/
theorem questionCharacter_discovery_witness :
    let lady : Character :=
      { id := "ch1", name := "Lady Gray", description := "noble",
        motive := none }
    let gardener : Character :=
      { id := "c2", name := "Gardener", description := "", motive := none }
    let c : GameCase :=
      { id := some "case1", title := "T", setting := "S",
        victim_name := "V", crime_scene_description := "D",
        crime_scene_image_url := none, characters := [lady],
        evidence := [], visual_scenes := [] }
    let s : AppState :=
      { currentCase := some c, sessionId := some "s1", loading := false,
        activeCharacter := some lady, question := "Where were you?",
        conversations := [], selectedEvidence := [], theory := "",
        analysis := "", investigationNotes := "", gameState := "playing",
        showContextPanel := false, showSaveLoad := false,
        newCharacterNotifications := [], visualSceneNotifications := [],
        savedGames := [] }
    let dsc : Discovery :=
      { character := some gardener, discovered_through := some "Lady Gray",
        context := some "mentioned the gardener" }
    let body : QuestionBody :=
      { character_name := some "Lady Gray",
        response := some "I was in the library.",
        new_characters_discovered := some [dsc],
        visual_scene_generated := none }
    ∃ c2 batch,
      (questionCharacter s (fun i => 100 + i) 7 5 "t"
        (.ok body)).1.currentCase = some c2 ∧
      c2.characters = c.characters ++ [dsc].filterMap (fun d => d.character) ∧
      ([dsc].filterMap (fun d => d.character)).length = [dsc].length ∧
      (questionCharacter s (fun i => 100 + i) 7 5 "t"
        (.ok body)).1.newCharacterNotifications =
        s.newCharacterNotifications ++ batch ∧
      batch.length = [dsc].length ∧
      ScheduledTimer.charExpiry 10000 batch ∈
        (questionCharacter s (fun i => 100 + i) 7 5 "t" (.ok body)).2 ∧
      expireCharBatch batch
        (questionCharacter s (fun i => 100 + i) 7 5 "t"
          (.ok body)).1.newCharacterNotifications =
        s.newCharacterNotifications := by
  intro lady gardener c s dsc body
  exact questionCharacter_discovery s (fun i => 100 + i) 7 5 "t" body lady c
    [dsc] (by decide) rfl rfl rfl (by simp) (by simp) (by simp)

/-- C10: on any successful `questionCharacter` response, entries of the
discovered list whose character payload is null contribute nothing: the
character list gains exactly the non-null payloads (in order), the
notification batch has one entry per non-null payload, and the
notification queue never holds a null character (assuming it held none
before). -/
theorem questionCharacter_null_payload_skipped (s : AppState)
    (idGen : Nat → Nat) (sceneNotifId now : Nat) (nowTimeStr : String)
    (body : QuestionBody) (ac : Character) (c : GameCase)
    (ds : List Discovery)
    (hq : jsTrim s.question ≠ "") (hac : s.activeCharacter = some ac)
    (hcc : s.currentCase = some c)
    (hds : body.new_characters_discovered = some ds)
    (hqueue : ∀ n ∈ s.newCharacterNotifications, n.character ≠ none) :
    ∃ c2 batch,
      (questionCharacter s idGen sceneNotifId now nowTimeStr
        (.ok body)).1.currentCase = some c2 ∧
      c2.characters = c.characters ++ ds.filterMap (fun d => d.character) ∧
      (∀ ch ∈ c2.characters,
        ch ∈ c.characters ∨ ∃ d ∈ ds, d.character = some ch) ∧
      (questionCharacter s idGen sceneNotifId now nowTimeStr
        (.ok body)).1.newCharacterNotifications =
        s.newCharacterNotifications ++ batch ∧
      batch.length = (ds.filter (fun d => d.character.isSome)).length ∧
      (∀ n ∈ (questionCharacter s idGen sceneNotifId now nowTimeStr
        (.ok body)).1.newCharacterNotifications, n.character ≠ none) := by
  have hQ := questionCharacter_ok_eq s idGen sceneNotifId now nowTimeStr body
    ac c hq hac hcc
  have hmemchars : ∀ ch ∈ c.characters ++ ds.filterMap (fun d => d.character),
      ch ∈ c.characters ∨ ∃ d ∈ ds, d.character = some ch := by
    intro ch hch
    rcases List.mem_append.mp hch with h | h
    · exact Or.inl h
    · exact Or.inr (List.mem_filterMap.mp h)
  by_cases hne : ds = []
  · subst hne
    cases hvs : body.visual_scene_generated with
    | none =>
      refine ⟨c, [], ?_, by simp, fun ch hch => Or.inl (by simpa using hch),
        ?_, rfl, ?_⟩
      · rw [hQ]
        simp [hds, hvs]
      · rw [hQ]
        simp [hds, hvs]
      · rw [hQ]
        simp only [hds, Option.getD_some, hvs, ne_eq, not_true_eq_false,
          if_false, List.append_nil]
        exact hqueue
    | some scene =>
      refine ⟨{ c with visual_scenes := c.visual_scenes ++ [scene] }, [],
        ?_, by simp, fun ch hch => Or.inl (by simpa using hch), ?_, rfl, ?_⟩
      · rw [hQ]
        simp [hds, hvs]
      · rw [hQ]
        simp [hds, hvs]
      · rw [hQ]
        simp only [hds, Option.getD_some, hvs, ne_eq, not_true_eq_false,
          if_false, List.append_nil]
        exact hqueue
  · have hblen : (((ds.enum).map (fun p =>
        ({ id := idGen p.1, character := p.2.character,
           discoveredThrough := p.2.discovered_through.getD "Unknown",
           context := p.2.context.getD "",
           timestamp := now } : CharNotification))).filter
          (fun n => n.character.isSome)).length =
        (ds.filter (fun d => d.character.isSome)).length := by
      have := filter_isSome_length_map_enumFrom (fun p =>
        ({ id := idGen p.1, character := p.2.character,
           discoveredThrough := p.2.discovered_through.getD "Unknown",
           context := p.2.context.getD "",
           timestamp := now } : CharNotification)) (fun p => rfl) 0 ds
      simpa [List.enum] using this
    have hbq : ∀ n ∈ ((ds.enum).map (fun p =>
        ({ id := idGen p.1, character := p.2.character,
           discoveredThrough := p.2.discovered_through.getD "Unknown",
           context := p.2.context.getD "",
           timestamp := now } : CharNotification))).filter
          (fun n => n.character.isSome), n.character ≠ none := by
      intro n hn
      have hs := (List.mem_filter.mp hn).2
      exact Option.ne_none_iff_isSome.mpr (by simpa using hs)
    have hq2 : ∀ n ∈ s.newCharacterNotifications ++ ((ds.enum).map (fun p =>
        ({ id := idGen p.1, character := p.2.character,
           discoveredThrough := p.2.discovered_through.getD "Unknown",
           context := p.2.context.getD "",
           timestamp := now } : CharNotification))).filter
          (fun n => n.character.isSome), n.character ≠ none := by
      intro n hn
      rcases List.mem_append.mp hn with h | h
      · exact hqueue n h
      · exact hbq n h
    cases hvs : body.visual_scene_generated with
    | none =>
      refine ⟨{ c with characters :=
          c.characters ++ ds.filterMap (fun d => d.character) }, _,
        ?_, rfl, hmemchars, ?_, hblen, ?_⟩
      · rw [hQ]
        simp only [hds, Option.getD_some, hvs, hne, ne_eq,
          not_false_eq_true, if_true]
      · rw [hQ]
        simp only [hds, Option.getD_some, hvs, hne, ne_eq,
          not_false_eq_true, if_true]
      · rw [hQ]
        simp only [hds, Option.getD_some, hvs, hne, ne_eq,
          not_false_eq_true, if_true]
        exact hq2
    | some scene =>
      refine ⟨{ c with
          characters := c.characters ++ ds.filterMap (fun d => d.character),
          visual_scenes := c.visual_scenes ++ [scene] }, _,
        ?_, rfl, hmemchars, ?_, hblen, ?_⟩
      · rw [hQ]
        simp only [hds, Option.getD_some, hvs, hne, ne_eq,
          not_false_eq_true, if_true]
      · rw [hQ]
        simp only [hds, Option.getD_some, hvs, hne, ne_eq,
          not_false_eq_true, if_true]
      · rw [hQ]
        simp only [hds, Option.getD_some, hvs, hne, ne_eq,
          not_false_eq_true, if_true]
        exact hq2

/-- Concrete instance of C10: a discovery list with one null payload and
one real payload contributes exactly one character and one notification. -/
theorem questionCharacter_null_payload_witness :
    let lady : Character :=
      { id := "ch1", name := "Lady Gray", description := "noble",
        motive := none }
    let gardener : Character :=
      { id := "c2", name := "Gardener", description := "", motive := none }
    let c : GameCase :=
      { id := some "case1", title := "T", setting := "S",
        victim_name := "V", crime_scene_description := "D",
        crime_scene_image_url := none, characters := [lady],
        evidence := [], visual_scenes := [] }
    let s : AppState :=
      { currentCase := some c, sessionId := some "s1", loading := false,
        activeCharacter := some lady, question := "Who was there?",
        conversations := [], selectedEvidence := [], theory := "",
        analysis := "", investigationNotes := "", gameState := "playing",
        showContextPanel := false, showSaveLoad := false,
        newCharacterNotifications := [], visualSceneNotifications := [],
        savedGames := [] }
    let dnull : Discovery :=
      { character := none, discovered_through := none, context := none }
    let dreal : Discovery :=
      { character := some gardener, discovered_through := some "Lady Gray",
        context := some "seen outside" }
    let body : QuestionBody :=
      { character_name := some "Lady Gray",
        response := some "Ask the gardener.",
        new_characters_discovered := some [dnull, dreal],
        visual_scene_generated := none }
    ∃ c2 batch,
      (questionCharacter s (fun i => 100 + i) 7 5 "t"
        (.ok body)).1.currentCase = some c2 ∧
      c2.characters =
        c.characters ++ [dnull, dreal].filterMap (fun d => d.character) ∧
      (∀ ch ∈ c2.characters,
        ch ∈ c.characters ∨ ∃ d ∈ [dnull, dreal], d.character = some ch) ∧
      (questionCharacter s (fun i => 100 + i) 7 5 "t"
        (.ok body)).1.newCharacterNotifications =
        s.newCharacterNotifications ++ batch ∧
      batch.length =
        ([dnull, dreal].filter (fun d => d.character.isSome)).length ∧
      (∀ n ∈ (questionCharacter s (fun i => 100 + i) 7 5 "t"
        (.ok body)).1.newCharacterNotifications, n.character ≠ none) := by
  intro lady gardener c s dnull dreal body
  exact questionCharacter_null_payload_skipped s (fun i => 100 + i) 7 5 "t"
    body lady c [dnull, dreal] (by decide) rfl rfl rfl (by simp)

end DetectiveApp
